import Mathlib

set_option maxHeartbeats 1000000
set_option maxRecDepth 4000

/-!
Shallow embedding of the core of the polars_readstat repository, together
with theorems settling the specification claims about it.

Conventions of the embedding:
- Rust usize arithmetic is modelled by Nat; Rust saturating_sub and the
  claims clamping phrases both land on truncated Nat subtraction.
- Machine integers (i32, i64) are modelled by Int; the C-side conversions
  readstat_int32_value and the (f64 as i64) cast are modelled by passing
  the already-converted integer to the translated function, which is the
  only way those values are consumed by the translated Rust code.
- f32 and f64 payloads are modelled as opaque Int payloads: none of the
  verified claims depends on float arithmetic, only on which payload (or
  null) is stored where.
-/

/-- Extensions enum from readstat/src/rs_data_series.rs (pub enum Extensions). -/
inductive Extensions
  | sas7bdat
  | dta
  | sav
  | NotSet
  deriving DecidableEq

/-- Constant DAY_SHIFT_SAS_STATA from readstat/src/rs_var.rs. -/
def DAY_SHIFT_SAS_STATA : Int := 3653

/-- Constant SEC_SHIFT_SAS_STATA from readstat/src/rs_var.rs. -/
def SEC_SHIFT_SAS_STATA : Int := 315619200

/-- Constant DAY_SHIFT_SPSS from readstat/src/rs_var.rs. -/
def DAY_SHIFT_SPSS : Int := 141428

/-- Constant SEC_SHIFT_SPSS from readstat/src/rs_var.rs. -/
def SEC_SHIFT_SPSS : Int := 12219379200

/-- Constant SEC_MILLISECOND from readstat/src/rs_var.rs. -/
def SEC_MILLISECOND : Int := 1000

/-- Constant SEC_MICROSECOND from readstat/src/rs_var.rs. -/
def SEC_MICROSECOND : Int := 1000000

/-- ReadStatVar::get_value_date32 from readstat/src/rs_var.rs.  The argument
is the result of readstat_int32_value applied to the raw value. -/
def get_value_date32 (value : Int) (extension : Extensions) : Int :=
  match extension with
  | Extensions.sas7bdat | Extensions.dta => value - DAY_SHIFT_SAS_STATA
  | Extensions.sav => value - DAY_SHIFT_SPSS
  | _ => value

/-- ReadStatVar::get_value_time64 from readstat/src/rs_var.rs.  The argument
is the result of readstat_int32_value (cast to i64) applied to the raw value. -/
def get_value_time64 (value : Int) (extension : Extensions) : Int :=
  match extension with
  | Extensions.sas7bdat | Extensions.dta => value * SEC_MICROSECOND
  | Extensions.sav => value * SEC_MICROSECOND
  | _ => value

/-- ReadStatVar::get_value_datetime64 from readstat/src/rs_var.rs.  The
argument is the result of readstat_double_value cast to i64. -/
def get_value_datetime64 (value : Int) (extension : Extensions) : Int :=
  match extension with
  | Extensions.sas7bdat | Extensions.dta => value - SEC_SHIFT_SAS_STATA * SEC_MILLISECOND
  | Extensions.sav => value - SEC_SHIFT_SPSS * SEC_MILLISECOND
  | _ => value

/-! ### rs_metadata.rs: schema construction -/

/-- ReadStatVarFormatClass from readstat/src/rs_var.rs. -/
inductive ReadStatVarFormatClass
  | Date
  | DateTime
  | Time
  deriving DecidableEq

/-- ReadStatVarType from readstat/src/rs_var.rs. -/
inductive ReadStatVarType
  | String
  | Int8
  | Int16
  | Int32
  | Float
  | Double
  | StringRef
  | Unknown
  deriving DecidableEq

/-- Polars TimeUnit, restricted to the constructor used by the code. -/
inductive PlTimeUnit
  | Milliseconds
  deriving DecidableEq

/-- The fragment of the polars DataType enum produced by the schema code. -/
inductive PlDataType
  | String
  | Int8
  | Int16
  | Int32
  | Float32
  | Float64
  | Date
  | Datetime (unit : PlTimeUnit) (tz : Option String)
  | Time
  deriving DecidableEq

/-- check_date_type from readstat/src/rs_metadata.rs. -/
def check_date_type (dt : PlDataType) (format : Option ReadStatVarFormatClass) :
    PlDataType :=
  match format with
  | some ReadStatVarFormatClass.Date => PlDataType.Date
  | some ReadStatVarFormatClass.DateTime => PlDataType.Datetime PlTimeUnit.Milliseconds none
  | some ReadStatVarFormatClass.Time => PlDataType.Time
  | none => dt

/-- The per-variable dtype computation inside
ReadStatMetadata::initialize_schema (readstat/src/rs_metadata.rs, the match
on vm.var_type). -/
def var_dtype (var_type : ReadStatVarType) (fc : Option ReadStatVarFormatClass) :
    PlDataType :=
  match var_type with
  | ReadStatVarType.String | ReadStatVarType.StringRef | ReadStatVarType.Unknown =>
      PlDataType.String
  | ReadStatVarType.Int8 => PlDataType.Int8
  | ReadStatVarType.Int16 => PlDataType.Int16
  | ReadStatVarType.Int32 => check_date_type PlDataType.Int32 fc
  | ReadStatVarType.Float => check_date_type PlDataType.Float32 fc
  | ReadStatVarType.Double => check_date_type PlDataType.Float64 fc

/-- The fields of ReadStatVarMetadata (readstat/src/rs_metadata.rs) consumed
by initialize_schema. -/
structure ReadStatVarMetadata where
  var_name : String
  var_type : ReadStatVarType
  var_format_class : Option ReadStatVarFormatClass
  deriving DecidableEq

/-- ReadStatMetadata::initialize_schema from readstat/src/rs_metadata.rs:
one (name, dtype) schema entry per variable, in variable order. -/
def initialize_schema (vars : List ReadStatVarMetadata) : List (String × PlDataType) :=
  vars.map (fun vm => (vm.var_name, var_dtype vm.var_type vm.var_format_class))

/-! ### read.rs (polars_readstat_rs) and backends/readstat.rs: projection -/

/-- Name lookup in a polars schema (Schema::get), first match by name. -/
def schemaGet (schema : List (String × PlDataType)) (nm : String) : Option PlDataType :=
  (schema.find? (fun p => p.1 == nm)).map (fun p => p.2)

/-- Reader::schema_with_projection_pushdown from polars_readstat_rs/src/read.rs:
the projected schema keeps, in projection order, those requested names that
resolve in the full schema, pairing them with their file dtypes. -/
def schema_with_projection_pushdown (full_schema : List (String × PlDataType))
    (with_columns : Option (List String)) : List (String × PlDataType) :=
  match with_columns with
  | some selected_columns =>
      selected_columns.filterMap (fun col_name =>
        (schemaGet full_schema col_name).map (fun dtype => (col_name, dtype)))
  | none => full_schema

/-- Index lookup in a polars schema (Schema::index_of). -/
def schemaIndexOf (schema : List (String × PlDataType)) (nm : String) : Option Nat :=
  schema.findIdx? (fun p => p.1 == nm)

/-- The column index resolution in ReadStatBackend::initialize_reader
(polars_readstat_rs/src/backends/readstat.rs): requested names are resolved
with filter_map over Schema::index_of. -/
def column_indices (schema : List (String × PlDataType))
    (with_columns : Option (List String)) : Option (List Nat) :=
  with_columns.map (fun cols => cols.filterMap (fun col_name => schemaIndexOf schema col_name))

/-! ### cb.rs: the per-value callback of the readstat crate -/

/-- Return codes of the C callbacks (enum ReadStatHandler in readstat/src/cb.rs). -/
inductive ReadStatHandler
  | READSTAT_HANDLER_OK
  | READSTAT_HANDLER_ABORT
  | READSTAT_HANDLER_SKIP_VARIABLE
  deriving DecidableEq

/-- The readstat_value_t union as consumed by the translated callbacks: the
system-missing flag plus the results of the C accessor functions.  Float
payloads are opaque Int payloads. -/
structure ReadstatValue where
  isSystemMissing : Bool
  strVal : String
  intVal : Int
  floatVal : Int
  doubleVal : Int

/-- TypedColumn from the rs_data module, as consumed by cb.rs handle_value:
one append-only buffer of optional cells per column. -/
inductive TypedColumn
  | StringColumn (vec : List (Option String))
  | F64Column (vec : List (Option Int))
  | F32Column (vec : List (Option Int))
  | I32Column (vec : List (Option Int))
  | I64Column (vec : List (Option Int))
  | DateColumn (vec : List (Option Int))
  | TimeColumn (vec : List (Option Int))
  | DateTimeColumn (vec : List (Option Int))
  deriving DecidableEq

/-- The missing branch of handle_value (cb.rs): push None into the column. -/
def TypedColumn.pushNull : TypedColumn → TypedColumn
  | TypedColumn.StringColumn v => TypedColumn.StringColumn (v ++ [none])
  | TypedColumn.F64Column v => TypedColumn.F64Column (v ++ [none])
  | TypedColumn.F32Column v => TypedColumn.F32Column (v ++ [none])
  | TypedColumn.I32Column v => TypedColumn.I32Column (v ++ [none])
  | TypedColumn.I64Column v => TypedColumn.I64Column (v ++ [none])
  | TypedColumn.DateColumn v => TypedColumn.DateColumn (v ++ [none])
  | TypedColumn.TimeColumn v => TypedColumn.TimeColumn (v ++ [none])
  | TypedColumn.DateTimeColumn v => TypedColumn.DateTimeColumn (v ++ [none])

/-- The non-missing branch of handle_value (cb.rs): push Some of the value
obtained through the matching ReadStatVar accessor, applying the epoch
translation for date, time and datetime columns. -/
def TypedColumn.pushValue (value : ReadstatValue) (ext : Extensions) :
    TypedColumn → TypedColumn
  | TypedColumn.StringColumn v => TypedColumn.StringColumn (v ++ [some value.strVal])
  | TypedColumn.F64Column v => TypedColumn.F64Column (v ++ [some value.doubleVal])
  | TypedColumn.F32Column v => TypedColumn.F32Column (v ++ [some value.floatVal])
  | TypedColumn.I32Column v => TypedColumn.I32Column (v ++ [some value.intVal])
  | TypedColumn.I64Column v => TypedColumn.I64Column (v ++ [some value.doubleVal])
  | TypedColumn.DateColumn v =>
      TypedColumn.DateColumn (v ++ [some (get_value_date32 value.intVal ext)])
  | TypedColumn.TimeColumn v =>
      TypedColumn.TimeColumn (v ++ [some (get_value_time64 value.intVal ext)])
  | TypedColumn.DateTimeColumn v =>
      TypedColumn.DateTimeColumn (v ++ [some (get_value_datetime64 value.doubleVal ext)])

/-- Cell count of a column buffer. -/
def TypedColumn.len : TypedColumn → Nat
  | TypedColumn.StringColumn v => v.length
  | TypedColumn.F64Column v => v.length
  | TypedColumn.F32Column v => v.length
  | TypedColumn.I32Column v => v.length
  | TypedColumn.I64Column v => v.length
  | TypedColumn.DateColumn v => v.length
  | TypedColumn.TimeColumn v => v.length
  | TypedColumn.DateTimeColumn v => v.length

/-- Whether cell j of the column is a null marker (none when out of range). -/
def TypedColumn.isNullAt (c : TypedColumn) (j : Nat) : Option Bool :=
  match c with
  | TypedColumn.StringColumn v => (v.get? j).map Option.isNone
  | TypedColumn.F64Column v => (v.get? j).map Option.isNone
  | TypedColumn.F32Column v => (v.get? j).map Option.isNone
  | TypedColumn.I32Column v => (v.get? j).map Option.isNone
  | TypedColumn.I64Column v => (v.get? j).map Option.isNone
  | TypedColumn.DateColumn v => (v.get? j).map Option.isNone
  | TypedColumn.TimeColumn v => (v.get? j).map Option.isNone
  | TypedColumn.DateTimeColumn v => (v.get? j).map Option.isNone

/-- The ReadStatData state consumed by cb.rs handle_value together with
rs_data_series.rs on_row_complete and send_chunk.  The cancel_flag field is
the atomic flag assigned by ReadStatBackend::initialize_reader
(backends/readstat.rs line 107) and set by ReadStatBackend::cancel.
fresh_cols stands for the empty builders produced by allocate_cols. -/
structure ReadStatDataS where
  var_count : Nat
  cols : List TypedColumn
  fresh_cols : List TypedColumn
  columns_to_read : Option (List Nat)
  columns_original_index_to_data : Option (List (Option Nat))
  extension : Extensions
  chunk_size : Nat
  chunk_rows_processed : Nat
  rows_to_process : Nat
  total_rows_processed : Nat
  chunk_index : Nat
  cancel_flag : Bool
  chunk_buffer : List (List TypedColumn)

/-- ReadStatData::send_chunk from readstat/src/rs_data_series.rs: when rows
are pending, drain the builders into a chunk pushed onto the shared buffer,
reallocate fresh builders when rows remain, and reset the per-chunk count. -/
def send_chunk (d : ReadStatDataS) : ReadStatDataS :=
  if 0 < d.chunk_rows_processed then
    { d with
        chunk_buffer := d.chunk_buffer ++ [d.cols],
        cols :=
          if d.total_rows_processed < d.rows_to_process then d.fresh_cols else [],
        chunk_rows_processed := 0,
        chunk_index := d.chunk_index + 1 }
  else d

/-- ReadStatData::on_row_complete from readstat/src/rs_data_series.rs. -/
def on_row_complete (d : ReadStatDataS) : ReadStatDataS :=
  let d1 := { d with
      chunk_rows_processed := d.chunk_rows_processed + 1,
      total_rows_processed := d.total_rows_processed + 1 }
  let d2 := if d1.chunk_size ≤ d1.chunk_rows_processed then send_chunk d1 else d1
  if d2.rows_to_process ≤ d2.total_rows_processed then send_chunk d2 else d2

/-- Element replacement at an index, a no-op out of range (the Rust source
indexes the Vec directly, which requires the index to be in range). -/
def listModify (l : List TypedColumn) (idx : Nat) (f : TypedColumn → TypedColumn) :
    List TypedColumn :=
  match l, idx with
  | [], _ => []
  | x :: xs, 0 => f x :: xs
  | x :: xs, n + 1 => x :: listModify xs n f

/-- The var_index_assign computation at the head of handle_value
(readstat/src/cb.rs): the projection position of a source variable index,
none when the column is skipped. -/
def var_index_assign (d : ReadStatDataS) (var_index : Nat) : Option Nat :=
  match d.columns_to_read with
  | none => some var_index
  | some _ => (d.columns_original_index_to_data.getD []).getD var_index none

/-- handle_value from readstat/src/cb.rs.  The projection lookup, the
system-missing test, the typed push and the end-of-row bookkeeping are
translated branch for branch.  The source never reads cancel_flag, and the
only abort return in the source is taken when on_row_complete returns an
error in the non-missing branch; on_row_complete as written in
rs_data_series.rs only propagates chunk-conversion errors, which the model
treats as infallible. -/
def handle_value (d : ReadStatDataS) (var_index : Nat) (value : ReadstatValue) :
    ReadStatDataS × ReadStatHandler :=
  match var_index_assign d var_index with
  | none =>
      let d := if var_index = d.var_count - 1 then on_row_complete d else d
      (d, ReadStatHandler.READSTAT_HANDLER_OK)
  | some idx =>
      if value.isSystemMissing then
        let d := { d with cols := listModify d.cols idx TypedColumn.pushNull }
        let d := if var_index = d.var_count - 1 then on_row_complete d else d
        (d, ReadStatHandler.READSTAT_HANDLER_OK)
      else
        let d := { d with cols := listModify d.cols idx (TypedColumn.pushValue value d.extension) }
        let d := if var_index = d.var_count - 1 then on_row_complete d else d
        (d, ReadStatHandler.READSTAT_HANDLER_OK)

/-! ### types.rs (polars_readstat): convert_readstat_value -/

/-- readstat value type tags distinguished by convert_readstat_value. -/
inductive RsValueType
  | StringT
  | Int8T
  | Int16T
  | Int32T
  | FloatT
  | DoubleT
  | OtherT
  deriving DecidableEq

/-- A tagged readstat value as consumed by convert_readstat_value: a type
tag, the missing flag the source computes, and the accessor payloads. -/
structure RsValueTagged where
  type_ : RsValueType
  isMissing : Bool
  strVal : String
  intVal : Int
  floatVal : Int
  doubleVal : Int

/-- The cell appended to the target mutable array by convert_readstat_value. -/
inductive ArrowCell
  | StrCell (v : Option String)
  | I8Cell (v : Option Int)
  | I16Cell (v : Option Int)
  | I32Cell (v : Option Int)
  | F32Cell (v : Option Int)
  | F64Cell (v : Option Int)
  | NoPush
  deriving DecidableEq

/-- convert_readstat_value from polars_readstat/src/types.rs, returning the
cell appended to the target mutable array.  The source computes is_missing
and never consumes it; every numeric branch pushes Some of the payload, and
the string branch pushes None exactly when the decoded string is empty. -/
def convert_readstat_value (value : RsValueTagged) : ArrowCell :=
  match value.type_ with
  | RsValueType.StringT =>
      if value.strVal.isEmpty then ArrowCell.StrCell none
      else ArrowCell.StrCell (some value.strVal)
  | RsValueType.Int8T => ArrowCell.I8Cell (some value.intVal)
  | RsValueType.Int16T => ArrowCell.I16Cell (some value.intVal)
  | RsValueType.Int32T => ArrowCell.I32Cell (some value.intVal)
  | RsValueType.FloatT => ArrowCell.F32Cell (some value.floatVal)
  | RsValueType.DoubleT => ArrowCell.F64Cell (some value.doubleVal)
  | RsValueType.OtherT => ArrowCell.NoPush

/-! ### stream.rs (polars_readstat_rs): partition plan -/

/-- n_chunks from PolarsReadstat::initialize_reader (stream.rs):
(n_rows + chunk_size - 1) / chunk_size. -/
def n_chunks (n_rows chunk_size : Nat) : Nat := (n_rows + chunk_size - 1) / chunk_size

/-- p_row from PolarsReadstat::initialize_reader: min(n_chunks, threads). -/
def p_row (n_rows chunk_size threads : Nat) : Nat :=
  min (n_chunks n_rows chunk_size) threads

/-- chunks_per_partition from PolarsReadstat::initialize_reader:
(n_chunks + p_row - 1) / p_row. -/
def chunks_per_partition (n_rows chunk_size threads : Nat) : Nat :=
  (n_chunks n_rows chunk_size + p_row n_rows chunk_size threads - 1) /
    p_row n_rows chunk_size threads

/-- row_per_chunk from PolarsReadstat::initialize_reader:
chunks_per_partition * chunk_size. -/
def row_per_chunk (n_rows chunk_size threads : Nat) : Nat :=
  chunks_per_partition n_rows chunk_size threads * chunk_size

/-- chunk_start for worker row_i: chunks_per_partition * row_i. -/
def worker_chunk_start (n_rows chunk_size threads i : Nat) : Nat :=
  chunks_per_partition n_rows chunk_size threads * i

/-- row_start for worker row_i: row_i * row_per_chunk. -/
def worker_row_start (n_rows chunk_size threads i : Nat) : Nat :=
  i * row_per_chunk n_rows chunk_size threads

/-- row_end for worker row_i: min(row_start + row_per_chunk, n_rows). -/
def worker_row_end (n_rows chunk_size threads i : Nat) : Nat :=
  min (worker_row_start n_rows chunk_size threads i + row_per_chunk n_rows chunk_size threads)
    n_rows

/-- The worker indices spawned by initialize_reader: the loop for row_i in
0..p_row spawns one worker per index, with no emptiness filter. -/
def spawned_workers (n_rows chunk_size threads : Nat) : List Nat :=
  List.range (p_row n_rows chunk_size threads)

/-! ### rs_data_series.rs: per-worker row accounting and chunk emission -/

/-- rows_to_process as computed by ReadStatData::set_row_info
(rs_data_series.rs): (row_end.saturating_sub(row_start)) + 1. -/
def rows_to_process (row_start row_end : Nat) : Nat := (row_end - row_start) + 1

/-- Rows the parser delivers to one worker, given the file row_count and the
row offset and row limit handed to it (parser adapter contract, spec 4.1:
rows in [offset, offset + limit) intersected with the file are delivered,
and an out-of-range offset delivers zero rows). -/
def delivered_rows (row_count row_start limit : Nat) : Nat :=
  min limit (row_count - row_start)

/-- The row-accounting state of one worker: the counter fields of
ReadStatData (rs_data_series.rs) plus the absolute file row positions needed
to record chunk contents as lists of row indices. -/
structure RowCounter where
  chunk_size : Nat
  rows_to_process : Nat
  chunk_rows_processed : Nat
  total_rows_processed : Nat
  chunk_start_row : Nat
  next_row : Nat
  emitted : List (List Nat)
  deriving DecidableEq

/-- send_chunk at the row-accounting level: emit the pending rows of the
current chunk (a contiguous run of file rows) and reset the per-chunk
counter. -/
def counterSend (c : RowCounter) : RowCounter :=
  if 0 < c.chunk_rows_processed then
    { c with
        emitted := c.emitted ++ [List.range' c.chunk_start_row c.chunk_rows_processed],
        chunk_rows_processed := 0,
        chunk_start_row := c.next_row }
  else c

/-- on_row_complete at the row-accounting level (rs_data_series.rs): bump
both counters, send a chunk when the per-chunk counter reaches chunk_size,
and send again when the total reaches rows_to_process. -/
def counterRow (c : RowCounter) : RowCounter :=
  let c1 := { c with
      chunk_rows_processed := c.chunk_rows_processed + 1,
      total_rows_processed := c.total_rows_processed + 1,
      next_row := c.next_row + 1 }
  let c2 := if c1.chunk_size ≤ c1.chunk_rows_processed then counterSend c1 else c1
  if c2.rows_to_process ≤ c2.total_rows_processed then counterSend c2 else c2

/-- Process n delivered rows in sequence. -/
def runRows (c : RowCounter) : Nat → RowCounter
  | 0 => c
  | n + 1 => runRows (counterRow c) n

/-- The chunk sequence one worker pushes for its assigned row range: the
parser is started with offset row_start and limit rows_to_process
(parse_data in rs_data_series.rs), and each delivered row runs
on_row_complete. -/
def worker_chunks (row_count chunk_size row_start row_end : Nat) : List (List Nat) :=
  let rtp := rows_to_process row_start row_end
  let d := delivered_rows row_count row_start rtp
  (runRows
    { chunk_size := chunk_size, rows_to_process := rtp, chunk_rows_processed := 0,
      total_rows_processed := 0, chunk_start_row := row_start, next_row := row_start,
      emitted := [] } d).emitted

/-- Rows delivered to worker i of the plan. -/
def worker_delivered (row_count chunk_size threads i : Nat) : Nat :=
  delivered_rows row_count (worker_row_start row_count chunk_size threads i)
    (rows_to_process (worker_row_start row_count chunk_size threads i)
      (worker_row_end row_count chunk_size threads i))

/-- Total rows delivered across all spawned workers of the plan. -/
def total_delivered (row_count chunk_size threads : Nat) : Nat :=
  ((spawned_workers row_count chunk_size threads).map
    (fun i => worker_delivered row_count chunk_size threads i)).sum

/-! ### stream.rs: channel messages and the ordered consumer -/

/-- ChunkMessage from stream.rs, with chunks carried as lists of absolute
file row indices and with p_col = 1 (the value initialize_reader fixes). -/
inductive StreamMessage
  | Data (row_chunk_index : Nat) (rows : List Nat)
  | ThreadComplete
  | ThreadError (error : String)
  deriving DecidableEq

/-- Insertion into the reorder buffer.  With p_col = 1, the nested insert of
stream.rs (buffer.entry(idx).or_default().insert(0, df)) replaces any chunk
already stored under the same global index. -/
def bufInsert (buf : List (Nat × List Nat)) (idx : Nat) (rows : List Nat) :
    List (Nat × List Nat) :=
  match buf with
  | [] => [(idx, rows)]
  | (j, r) :: rest =>
      if j = idx then (idx, rows) :: rest else (j, r) :: bufInsert rest idx rows

/-- Buffer lookup by global chunk index. -/
def bufGet (buf : List (Nat × List Nat)) (idx : Nat) : Option (List Nat) :=
  match buf with
  | [] => none
  | (j, r) :: rest => if j = idx then some r else bufGet rest idx

/-- Buffer removal by global chunk index. -/
def bufRemove (buf : List (Nat × List Nat)) (idx : Nat) : List (Nat × List Nat) :=
  match buf with
  | [] => []
  | (j, r) :: rest => if j = idx then rest else (j, r) :: bufRemove rest idx

/-- Emit from the reorder buffer every chunk whose index is next in line,
advancing next_chunk_to_emit, exactly as the head of the next_batch loop in
stream.rs does before receiving further messages.  Fuel bounds the number of
emissions by the buffer size. -/
def flushAux : Nat → List (Nat × List Nat) → Nat →
    List (List Nat) × List (Nat × List Nat) × Nat
  | 0, buf, next => ([], buf, next)
  | fuel + 1, buf, next =>
      match bufGet buf next with
      | some rows =>
          let r := flushAux fuel (bufRemove buf next) (next + 1)
          (rows :: r.1, r.2.1, r.2.2)
      | none => ([], buf, next)

/-- Full flush of the reorder buffer from the given next index. -/
def flushBuffer (buf : List (Nat × List Nat)) (next : Nat) :
    List (List Nat) × List (Nat × List Nat) × Nat :=
  flushAux (buf.length + 1) buf next

/-- The chunk sequence successive next_batch calls return, for an arrival
schedule of worker messages in which every message is eventually delivered:
each Data message is inserted into the reorder buffer and every chunk that
becomes next in line is emitted; completion and error messages emit
nothing.  This restructures the blocking receive loop of stream.rs
next_batch into an eager left-to-right pass over the arrival order, which
leaves the emitted sequence unchanged. -/
def consumeMessages : List StreamMessage → List (Nat × List Nat) → Nat →
    List (List Nat)
  | [], _, _ => []
  | StreamMessage.Data idx rows :: rest, buf, next =>
      let r := flushBuffer (bufInsert buf idx rows) next
      r.1 ++ consumeMessages rest r.2.1 r.2.2
  | StreamMessage.ThreadComplete :: rest, buf, next => consumeMessages rest buf next
  | StreamMessage.ThreadError _ :: rest, buf, next => consumeMessages rest buf next

/-- The message sequence worker row_i sends over the channel
(spawn_worker_thread in stream.rs): its chunks in order, tagged with
chunk_start + local index, followed by ThreadComplete. -/
def worker_messages (row_count chunk_size threads i : Nat) : List StreamMessage :=
  let cs := worker_chunk_start row_count chunk_size threads i
  let chunks := worker_chunks row_count chunk_size
    (worker_row_start row_count chunk_size threads i)
    (worker_row_end row_count chunk_size threads i)
  (chunks.enum.map (fun p => StreamMessage.Data (cs + p.1) p.2)) ++
    [StreamMessage.ThreadComplete]

/-- The state with the shared cancellation flag set to b, as
ReadStatBackend::cancel does with b = true (backends/readstat.rs). -/
def withCancelFlag (d : ReadStatDataS) (b : Bool) : ReadStatDataS :=
  { d with cancel_flag := b }

/-- Spec-side definition, following the words of the section 3 table of
semantic column types, for comparison with the dtype the code computes:
String maps to string, Int8/16/32 map to Int8/16/32 for any format class,
Float32 with class None maps to Float32, Float64 with class None maps to
Float64, and Float64 with class Date, Time or DateTime maps to Date, Time
or Timestamp; combinations the table does not list yield none. -/
def spec_semantic_type (rt : ReadStatVarType) (fc : Option ReadStatVarFormatClass) :
    Option PlDataType :=
  match rt, fc with
  | ReadStatVarType.String, _ => some PlDataType.String
  | ReadStatVarType.Int8, _ => some PlDataType.Int8
  | ReadStatVarType.Int16, _ => some PlDataType.Int16
  | ReadStatVarType.Int32, _ => some PlDataType.Int32
  | ReadStatVarType.Float, none => some PlDataType.Float32
  | ReadStatVarType.Double, none => some PlDataType.Float64
  | ReadStatVarType.Double, some ReadStatVarFormatClass.Date => some PlDataType.Date
  | ReadStatVarType.Double, some ReadStatVarFormatClass.Time => some PlDataType.Time
  | ReadStatVarType.Double, some ReadStatVarFormatClass.DateTime =>
      some (PlDataType.Datetime PlTimeUnit.Milliseconds none)
  | _, _ => none

/-- Spec-side definition, following the words of the section 4.2 table for
the SPSS Date translation: ((raw - 12,219,379,200) / 86,400) as days. -/
def spec_spss_date_days (raw : Int) : Int := (raw - SEC_SHIFT_SPSS) / 86400

/-- Arrival schedule in which both messages of worker 0 reach the channel
before the message of worker 1, for the 20 row file read with chunk_size 10
and two threads.  Messages of each worker stay in their send order, so this
is a possible arrival order of the mpsc channel. -/
def sched_w0_first : List StreamMessage :=
  worker_messages 20 10 2 0 ++ worker_messages 20 10 2 1

/-- Arrival schedule in which the single data message of worker 1 arrives
between the two data messages of worker 0; again a possible arrival order,
as each sender stays in order. -/
def sched_interleaved : List StreamMessage :=
  (worker_messages 20 10 2 0).take 1 ++ (worker_messages 20 10 2 1).take 1 ++
    (worker_messages 20 10 2 0).drop 1 ++ (worker_messages 20 10 2 1).drop 1

/-- The message sequence of the single-partition run of the same read
(thread budget 1). -/
def sched_single : List StreamMessage := worker_messages 20 10 1 0

/-! ## Claim theorems -/

/-- C4: for SAS (.sas7bdat) and Stata (.dta) files, a non-missing raw
numeric whose format class is Date is stored as (raw as i32) - 3653 days,
Time as (raw as i64) * 1_000_000 microseconds since midnight, and DateTime
as (raw as i64) - 315,619,200,000 milliseconds since 1970. -/
theorem C4_sas_stata_epoch_translation :
    ∀ v : Int,
      get_value_date32 v Extensions.sas7bdat = v - 3653 ∧
      get_value_date32 v Extensions.dta = v - 3653 ∧
      get_value_time64 v Extensions.sas7bdat = v * 1000000 ∧
      get_value_time64 v Extensions.dta = v * 1000000 ∧
      get_value_datetime64 v Extensions.sas7bdat = v - 315619200000 ∧
      get_value_datetime64 v Extensions.dta = v - 315619200000 := by
  intro v
  refine ⟨rfl, rfl, rfl, rfl, ?_, ?_⟩ <;>
    simp only [get_value_datetime64, SEC_SHIFT_SAS_STATA, SEC_MILLISECOND] <;> norm_num

/-- C5 counterexample: at raw value 86,400 (one day after the SPSS epoch,
within i32 range so the int32 conversion is exact) the code stores
86,400 - 141,428 = -55,028, while the formula of the claim gives
(86,400 - 12,219,379,200) / 86,400 = -141,427 days. -/
theorem C5_counterexample :
    get_value_date32 86400 Extensions.sav = -55028 ∧
    spec_spss_date_days 86400 = -141427 ∧
    ((-55028 : Int) ≠ -141427) := by
  refine ⟨rfl, ?_, by decide⟩
  norm_num [spec_spss_date_days, SEC_SHIFT_SPSS]

/-- C5 amended: for SPSS (.sav/.zsav) files the stored Date value is
(raw as i32) - 141,428: the day-shift constant is subtracted directly from
the int32-converted raw value, with no division by 86,400. -/
theorem C5_sav_day_shift_applied_directly :
    ∀ v : Int, get_value_date32 v Extensions.sav = v - 141428 := fun _ => rfl

/-- C3 counterexample: a variable of raw type Int32 whose format class is
Date is given the projected dtype Date by initialize_schema, while the
table of the claim maps Int8/16/32 to Int8/16/32 for any format class. -/
theorem C3_counterexample :
    initialize_schema
        [{ var_name := "dob", var_type := ReadStatVarType.Int32,
           var_format_class := some ReadStatVarFormatClass.Date }] =
      [("dob", PlDataType.Date)] ∧
    spec_semantic_type ReadStatVarType.Int32 (some ReadStatVarFormatClass.Date) =
      some PlDataType.Int32 ∧
    PlDataType.Date ≠ PlDataType.Int32 := by
  refine ⟨rfl, rfl, by decide⟩

/-- C3 amended: projected dtypes are a pure function of (raw_type,
format_class) alone, but the table is: String/StringRef/Unknown map to
String; Int8 and Int16 map to Int8 and Int16 for any format class; Int32,
Float32 and Float64 map to Int32, Float32 and Float64 only when the format
class is None, and any of them with format class Date, Time or DateTime
maps to Date, Time or Datetime(ms).  No dtype depends on observed data. -/
theorem C3_schema_dtype_table :
    (∀ vars : List ReadStatVarMetadata,
      initialize_schema vars =
        vars.map (fun vm => (vm.var_name, var_dtype vm.var_type vm.var_format_class))) ∧
    (∀ (rt : ReadStatVarType) (fc : Option ReadStatVarFormatClass),
      var_dtype rt fc =
        match rt, fc with
        | ReadStatVarType.String, _ | ReadStatVarType.StringRef, _
        | ReadStatVarType.Unknown, _ => PlDataType.String
        | ReadStatVarType.Int8, _ => PlDataType.Int8
        | ReadStatVarType.Int16, _ => PlDataType.Int16
        | ReadStatVarType.Int32, none => PlDataType.Int32
        | ReadStatVarType.Float, none => PlDataType.Float32
        | ReadStatVarType.Double, none => PlDataType.Float64
        | _, some ReadStatVarFormatClass.Date => PlDataType.Date
        | _, some ReadStatVarFormatClass.Time => PlDataType.Time
        | _, some ReadStatVarFormatClass.DateTime =>
            PlDataType.Datetime PlTimeUnit.Milliseconds none) := by
  refine ⟨fun vars => rfl, fun rt fc => ?_⟩
  cases rt <;> rcases fc with _ | fc <;> first | rfl | (cases fc <;> rfl)

/-- C6 counterexample: projecting the unknown name nope on a one-column
schema produces an empty projected schema and an empty resolved index list;
no error value exists on this path, and the unknown name is silently
dropped. -/
theorem C6_counterexample :
    schema_with_projection_pushdown [("a", PlDataType.Int32)] (some ["nope"]) = [] ∧
    column_indices [("a", PlDataType.Int32)] (some ["nope"]) = some [] := by
  refine ⟨rfl, rfl⟩

/-- C6 amended: setting a projection never fails; unknown names are
silently dropped.  A pair (name, dtype) appears in the projected schema
exactly when the name was requested and resolves in the full schema with
that dtype. -/
theorem C6_unknown_names_silently_dropped :
    ∀ (schema : List (String × PlDataType)) (cols : List String) (nm : String)
      (dt : PlDataType),
      ((nm, dt) ∈ schema_with_projection_pushdown schema (some cols) ↔
        nm ∈ cols ∧ schemaGet schema nm = some dt) := by
  intro schema cols nm dt
  simp only [schema_with_projection_pushdown, List.mem_filterMap]
  constructor
  · rintro ⟨x, hx, hmap⟩
    rcases Option.map_eq_some'.mp hmap with ⟨a, ha, hpair⟩
    injection hpair with h1 h2
    subst h1; subst h2
    exact ⟨hx, ha⟩
  · rintro ⟨hmem, hget⟩
    exact ⟨nm, hmem, by rw [hget]; rfl⟩

/-- C9 counterexample: with the shared cancellation flag already set, the
per-value callback still returns OK on its next invocation (here a
non-missing value of a projected column), not the abort sentinel. -/
theorem C9_counterexample :
    (handle_value
        { var_count := 2,
          cols := [TypedColumn.I32Column [], TypedColumn.I32Column []],
          fresh_cols := [TypedColumn.I32Column [], TypedColumn.I32Column []],
          columns_to_read := none,
          columns_original_index_to_data := none,
          extension := Extensions.sas7bdat,
          chunk_size := 10,
          chunk_rows_processed := 0,
          rows_to_process := 5,
          total_rows_processed := 0,
          chunk_index := 0,
          cancel_flag := true,
          chunk_buffer := [] } 0
        { isSystemMissing := false, strVal := "x", intVal := 7, floatVal := 0,
          doubleVal := 0 }).2 = ReadStatHandler.READSTAT_HANDLER_OK ∧
    ReadStatHandler.READSTAT_HANDLER_OK ≠ ReadStatHandler.READSTAT_HANDLER_ABORT := by
  refine ⟨rfl, by decide⟩

/-- C9 amended: the per-value callback never returns the abort sentinel at
all: it does not read the cancellation flag (which is only ever stored, in
ReadStatBackend::cancel and on drop), so workers do not observe
cancellation through it and a cancelled parse is not bounded to one further
row of work. -/
theorem C9_handle_value_always_ok :
    ∀ (d : ReadStatDataS) (var_index : Nat) (value : ReadstatValue),
      (handle_value d var_index value).2 = ReadStatHandler.READSTAT_HANDLER_OK := by
  intro d i v
  cases h : var_index_assign d i <;> cases hm : v.isSystemMissing <;>
    simp [handle_value, h, hm]

/-- C10: in convert_readstat_value of the polars_readstat crate, a
non-missing string value whose decoded content is the empty string is
stored as a null cell, with no dependence on file kind or on any
missing_string_as_null configuration (the function takes neither). -/
theorem C10_empty_string_stored_null :
    ∀ value : RsValueTagged,
      value.type_ = RsValueType.StringT →
      value.isMissing = false →
      value.strVal = "" →
      convert_readstat_value value = ArrowCell.StrCell none := by
  intro v ht _ hs
  have hempty : v.strVal.isEmpty = true := by rw [hs]; rfl
  simp [convert_readstat_value, ht, hempty]

/-- C10 witness: the concrete non-missing empty string value is stored as a
null cell. -/
theorem C10_witness :
    ({ type_ := RsValueType.StringT, isMissing := false, strVal := "",
       intVal := 0, floatVal := 0, doubleVal := 0 } : RsValueTagged).type_ =
        RsValueType.StringT ∧
    ({ type_ := RsValueType.StringT, isMissing := false, strVal := "",
       intVal := 0, floatVal := 0, doubleVal := 0 } : RsValueTagged).isMissing = false ∧
    convert_readstat_value
        { type_ := RsValueType.StringT, isMissing := false, strVal := "",
          intVal := 0, floatVal := 0, doubleVal := 0 } = ArrowCell.StrCell none :=
  ⟨rfl, rfl, C10_empty_string_stored_null _ rfl rfl rfl⟩

/-- C2: the claim fails on the code.  With a 20 row file, chunk_size 10 and
thread budget 2, worker 0 is assigned the half-open range [0, 10) but
set_row_info computes rows_to_process = (10 - 0) + 1 = 11, so the parser is
started with limit 11 and the worker delivers 11 rows, not 10; across both
workers 21 rows are delivered while min(row_count - offset, limit) = 20. -/
theorem C2_worker_row_count_off_by_one :
    worker_row_start 20 10 2 0 = 0 ∧
    worker_row_end 20 10 2 0 = 10 ∧
    rows_to_process (worker_row_start 20 10 2 0) (worker_row_end 20 10 2 0) = 11 ∧
    worker_delivered 20 10 2 0 = 11 ∧
    worker_row_end 20 10 2 0 - worker_row_start 20 10 2 0 = 10 ∧
    (11 : Nat) ≠ 10 ∧
    total_delivered 20 10 2 = 21 ∧
    (21 : Nat) ≠ min (20 - 0) 20 := by decide

/-- C1: the claim fails on the code.  For a 20 row file with chunk_size 10
and thread budget 2 under preserve_order, worker 0 delivers 11 rows (rows 0
through 10) and tags its spillover chunk with global index 1, colliding
with the only chunk of worker 1; when the messages of worker 0 arrive
first, the consumer emits rows 0 through 9 and then the one-row chunk [10],
11 rows in total, and the ten rows of worker 1 are lost, while the
single-threaded run of the same slice emits rows 0 through 19; a different
arrival order of the same messages emits 20 rows, so the emitted sequence
also depends on arrival order rather than only on the inputs. -/
theorem C1_parallel_differs_from_single_threaded :
    (consumeMessages sched_single [] 0).flatten = List.range 20 ∧
    ((consumeMessages sched_w0_first [] 0).map List.length).sum = 11 ∧
    (consumeMessages sched_w0_first [] 0).flatten ≠
      (consumeMessages sched_single [] 0).flatten ∧
    (consumeMessages sched_w0_first [] 0).flatten ≠
      (consumeMessages sched_interleaved [] 0).flatten := by decide

/-- C8 counterexample: with total_rows 4, chunk_size 1 and thread budget 3,
p_row = 3 and chunks_per_worker = 2, so worker 2 receives the empty chunk
range [4, min(6, 4)) and the empty row range [4, 4), yet the spawn loop
runs over all of 0..p_row and spawns it. -/
theorem C8_counterexample :
    p_row 4 1 3 = 3 ∧
    chunks_per_partition 4 1 3 = 2 ∧
    (2 : Nat) ∈ spawned_workers 4 1 3 ∧
    worker_chunk_start 4 1 3 2 = 4 ∧
    min (3 * chunks_per_partition 4 1 3) (n_chunks 4 1) = 4 ∧
    worker_row_start 4 1 3 2 = 4 ∧
    worker_row_end 4 1 3 2 = 4 ∧
    ¬ worker_row_start 4 1 3 2 < worker_row_end 4 1 3 2 := by decide

/-- The ceiling division of the plan covers all rows: n_chunks * chunk_size
is at least total_rows. -/
theorem le_n_chunks_mul (n cs : Nat) (h : 0 < cs) : n ≤ n_chunks n cs * cs := by
  unfold n_chunks
  have h1 := Nat.div_add_mod (n + cs - 1) cs
  have h2 : (n + cs - 1) % cs < cs := Nat.mod_lt _ h
  rw [Nat.mul_comm]
  omega

/-- Truncated multiplication distributes over min on Nat. -/
theorem nat_min_mul_right (a b c : Nat) : min a b * c = min (a * c) (b * c) := by
  rcases Nat.le_total a b with h | h
  · rw [Nat.min_eq_left h, Nat.min_eq_left (Nat.mul_le_mul_right c h)]
  · rw [Nat.min_eq_right h, Nat.min_eq_right (Nat.mul_le_mul_right c h)]

/-- C8 amended: under total_rows, chunk_size, thread_budget all at least 1,
the plan satisfies n_chunks = ceil(total_rows / chunk_size), p_row =
min(thread_budget, n_chunks), and worker i in [0, p_row) receives chunk
indices [i * chunks_per_worker, min((i+1) * chunks_per_worker, n_chunks))
with row offset start_chunk * chunk_size and a row range of length
(end_chunk - start_chunk) * chunk_size clamped to total_rows - offset; but
one worker is spawned for every i in [0, p_row), including workers whose
chunk range is empty (such workers deliver no rows). -/
theorem C8_plan_formulas :
    ∀ (total_rows chunk_size threads i : Nat),
      1 ≤ total_rows → 1 ≤ chunk_size → 1 ≤ threads →
      i < p_row total_rows chunk_size threads →
      (n_chunks total_rows chunk_size = (total_rows + chunk_size - 1) / chunk_size ∧
       p_row total_rows chunk_size threads = min threads (n_chunks total_rows chunk_size) ∧
       worker_chunk_start total_rows chunk_size threads i =
         i * chunks_per_partition total_rows chunk_size threads ∧
       worker_row_start total_rows chunk_size threads i =
         worker_chunk_start total_rows chunk_size threads i * chunk_size ∧
       worker_row_end total_rows chunk_size threads i -
           worker_row_start total_rows chunk_size threads i =
         min ((min ((i + 1) * chunks_per_partition total_rows chunk_size threads)
                 (n_chunks total_rows chunk_size) -
               i * chunks_per_partition total_rows chunk_size threads) * chunk_size)
           (total_rows - worker_row_start total_rows chunk_size threads i) ∧
       spawned_workers total_rows chunk_size threads =
         List.range (p_row total_rows chunk_size threads)) := by
  intro tr cs th i htr hcs hth hi
  refine ⟨rfl, Nat.min_comm _ _, Nat.mul_comm _ _, ?_, ?_, rfl⟩
  · show i * row_per_chunk tr cs th =
      chunks_per_partition tr cs th * i * cs
    unfold row_per_chunk
    ring
  · show min (i * row_per_chunk tr cs th + row_per_chunk tr cs th) tr -
        i * row_per_chunk tr cs th =
      min ((min ((i + 1) * chunks_per_partition tr cs th) (n_chunks tr cs) -
            i * chunks_per_partition tr cs th) * cs)
        (tr - i * row_per_chunk tr cs th)
    unfold row_per_chunk
    have hdist : (min ((i + 1) * chunks_per_partition tr cs th) (n_chunks tr cs) -
          i * chunks_per_partition tr cs th) * cs =
        min ((i + 1) * chunks_per_partition tr cs th * cs) (n_chunks tr cs * cs) -
          i * chunks_per_partition tr cs th * cs := by
      rw [Nat.sub_mul, nat_min_mul_right]
    rw [hdist]
    have hA : (i + 1) * chunks_per_partition tr cs th * cs =
        i * chunks_per_partition tr cs th * cs + chunks_per_partition tr cs th * cs := by
      ring
    have hC : i * (chunks_per_partition tr cs th * cs) =
        i * chunks_per_partition tr cs th * cs := by
      ring
    have hB : tr ≤ n_chunks tr cs * cs := le_n_chunks_mul tr cs hcs
    simp only [hC, hA]
    omega

/-- C8 witness: the plan formulas instantiated at total_rows 4, chunk_size
1, thread budget 3, worker 2. -/
theorem C8_plan_formulas_witness :
    ((1 : Nat) ≤ 4 ∧ (1 : Nat) ≤ 1 ∧ (1 : Nat) ≤ 3 ∧ 2 < p_row 4 1 3) ∧
    (n_chunks 4 1 = (4 + 1 - 1) / 1 ∧
     p_row 4 1 3 = min 3 (n_chunks 4 1) ∧
     worker_chunk_start 4 1 3 2 = 2 * chunks_per_partition 4 1 3 ∧
     worker_row_start 4 1 3 2 = worker_chunk_start 4 1 3 2 * 1 ∧
     worker_row_end 4 1 3 2 - worker_row_start 4 1 3 2 =
       min ((min ((2 + 1) * chunks_per_partition 4 1 3) (n_chunks 4 1) -
             2 * chunks_per_partition 4 1 3) * 1)
         (4 - worker_row_start 4 1 3 2) ∧
     spawned_workers 4 1 3 = List.range (p_row 4 1 3)) :=
  ⟨⟨by decide, by decide, by decide, by decide⟩,
   C8_plan_formulas 4 1 3 2 (by decide) (by decide) (by decide) (by decide)⟩

/-- C7: null semantics of the value path that fills emitted chunks
(handle_value in readstat/src/cb.rs).  For a projected position, the
callback appends to that column exactly the cell
(if missing then null else the typed value) and returns OK; the appended
cell is null precisely when the parser reported the value system-missing,
earlier cells are untouched, and a missing value is stored as the null
marker rather than as any payload. -/
theorem C7_missing_iff_null :
    ∀ (d : ReadStatDataS) (var_index : Nat) (value : ReadstatValue) (idx : Nat)
      (c : TypedColumn),
      var_index_assign d var_index = some idx →
      d.cols.get? idx = some c →
      (handle_value d var_index value =
        (let pushed := listModify d.cols idx
            (if value.isSystemMissing then TypedColumn.pushNull
             else TypedColumn.pushValue value d.extension)
         let d2 := { d with cols := pushed }
         (if var_index = d.var_count - 1 then on_row_complete d2 else d2,
          ReadStatHandler.READSTAT_HANDLER_OK))) ∧
      ((if value.isSystemMissing then TypedColumn.pushNull c
        else TypedColumn.pushValue value d.extension c).isNullAt c.len =
          some value.isSystemMissing) ∧
      (∀ j, j < c.len →
        (if value.isSystemMissing then TypedColumn.pushNull c
         else TypedColumn.pushValue value d.extension c).isNullAt j = c.isNullAt j) := by
  intro d i v idx c hassign hget
  refine ⟨?_, ?_, ?_⟩
  · cases hm : v.isSystemMissing <;> simp [handle_value, hassign, hm]
  · cases hm : v.isSystemMissing <;> cases c <;>
      simp [TypedColumn.pushNull, TypedColumn.pushValue, TypedColumn.isNullAt,
        TypedColumn.len, List.getElem?_concat_length, hm]
  · intro j hj
    cases hm : v.isSystemMissing <;> cases c <;>
      simp only [TypedColumn.len] at hj <;>
      simp [TypedColumn.pushNull, TypedColumn.pushValue, TypedColumn.isNullAt,
        List.getElem?_append_left hj]

/-- C7 witness: the null-semantics statement instantiated at a concrete
one-column state and a concrete missing value. -/
theorem C7_missing_iff_null_witness :
    (var_index_assign
        { var_count := 3,
          cols := [TypedColumn.I32Column [some 5]],
          fresh_cols := [TypedColumn.I32Column []],
          columns_to_read := none,
          columns_original_index_to_data := none,
          extension := Extensions.sas7bdat,
          chunk_size := 10,
          chunk_rows_processed := 0,
          rows_to_process := 5,
          total_rows_processed := 0,
          chunk_index := 0,
          cancel_flag := false,
          chunk_buffer := [] } 0 = some 0) ∧
    ((if ({ isSystemMissing := true, strVal := "", intVal := 0, floatVal := 0,
            doubleVal := 0 } : ReadstatValue).isSystemMissing then
        TypedColumn.pushNull (TypedColumn.I32Column [some 5])
      else
        TypedColumn.pushValue
          { isSystemMissing := true, strVal := "", intVal := 0, floatVal := 0,
            doubleVal := 0 }
          Extensions.sas7bdat (TypedColumn.I32Column [some 5])).isNullAt
        (TypedColumn.I32Column [some 5]).len =
      some ({ isSystemMissing := true, strVal := "", intVal := 0, floatVal := 0,
              doubleVal := 0 } : ReadstatValue).isSystemMissing) :=
  ⟨rfl,
   (C7_missing_iff_null
      { var_count := 3,
        cols := [TypedColumn.I32Column [some 5]],
        fresh_cols := [TypedColumn.I32Column []],
        columns_to_read := none,
        columns_original_index_to_data := none,
        extension := Extensions.sas7bdat,
        chunk_size := 10,
        chunk_rows_processed := 0,
        rows_to_process := 5,
        total_rows_processed := 0,
        chunk_index := 0,
        cancel_flag := false,
        chunk_buffer := [] } 0
      { isSystemMissing := true, strVal := "", intVal := 0, floatVal := 0,
        doubleVal := 0 } 0 (TypedColumn.I32Column [some 5]) rfl rfl).2.1⟩
